import Mathlib

/-!
Shallow embedding of the FloodGuard backend prediction pipeline
(`src/server.js`): the risk-scoring heuristic, the model-loading state
machine, the data-source fetchers with their fallbacks, the alert gate,
and the manual-trigger endpoint.  JavaScript numbers are modelled as
exact rationals (every literal in the relevant code paths is an exact
decimal and all comparisons are between such literals, so the rational
model agrees with IEEE doubles on every comparison that matters here);
`Math.round` is modelled as `⌊x + 1/2⌋`, which is its round-half-up
semantics, valid for negatives as well.
-/

namespace FloodGuard

/-- JavaScript `Math.round`: round half toward +∞, i.e. `⌊x + 1/2⌋`. -/
def jsRound (q : ℚ) : ℤ := ⌊q + 1/2⌋

/-- Rainfall contribution of `calculateRiskFallback`
(`server.js` lines 177–183): bucketed points, linear below 5 mm. -/
def rainBucket (rainfall : ℚ) : ℚ :=
  if rainfall > 50 then 45
  else if rainfall > 30 then 38
  else if rainfall > 20 then 28
  else if rainfall > 10 then 18
  else if rainfall > 5 then 10
  else rainfall

/-- Water-level contribution (`server.js` lines 185–190). -/
def waterBucket (waterLevel : ℚ) : ℚ :=
  if waterLevel > 5 then 35
  else if waterLevel > 4 then 28
  else if waterLevel > 3 then 20
  else if waterLevel > 5/2 then 12
  else if waterLevel > 2 then 5
  else 0

/-- Soil-moisture contribution (`server.js` lines 192–197). -/
def soilBucket (soilMoisture : ℚ) : ℚ :=
  if soilMoisture > 9/10 then 20
  else if soilMoisture > 8/10 then 16
  else if soilMoisture > 7/10 then 12
  else if soilMoisture > 6/10 then 8
  else if soilMoisture > 1/2 then 4
  else 0

/-- The running `risk` value just before the combined-risk multiplier
check: the sum of the three bucket contributions. -/
def bucketSum (rainfall waterLevel soilMoisture : ℚ) : ℚ :=
  rainBucket rainfall + waterBucket waterLevel + soilBucket soilMoisture

/-- `calculateRiskFallback` (`server.js` lines 174–205): bucket sum,
then `risk = Math.min(risk * 1.3, 100)` when all three combined-risk
conditions hold, then `Math.min(Math.round(risk), 100)`. -/
def calculateRiskFallback (rainfall waterLevel soilMoisture : ℚ) : ℤ :=
  let risk := bucketSum rainfall waterLevel soilMoisture
  let risk :=
    if rainfall > 20 ∧ waterLevel > 3 ∧ soilMoisture > 7/10
    then min (risk * (13/10)) 100
    else risk
  min (jsRound risk) 100

/-- Risk-level classification (`server.js` line 365):
`riskPercent < 30 ? 'low' : riskPercent < 70 ? 'medium' : 'high'`. -/
def riskLevel (riskPercent : ℤ) : String :=
  if riskPercent < 30 then "low"
  else if riskPercent < 70 then "medium"
  else "high"

/-! ## Model loading and prediction (`server.js` lines 93–250)

The TensorFlow model is external: it is modelled as a function from the
normalized input vector to the raw network output (`dataSync()[0]`).
The module-level mutable globals `model`, `modelLoadAttempted`,
`usingFallback` become an explicit `ModelState` threaded through the
functions; the outcome of the environment-dependent steps (requiring
TensorFlow, checking the model file, running inference) is an explicit
environment parameter. -/

/-- An opaque loaded TensorFlow layers model: `predict` maps the input
feature vector to `prediction.dataSync()[0]`. -/
structure TFModel where
  predict : List ℚ → ℚ

/-- The module-level globals `model`, `modelLoadAttempted`,
`usingFallback` (`server.js` lines 93–95). -/
structure ModelState where
  model : Option TFModel
  modelLoadAttempted : Bool
  usingFallback : Bool

/-- Initial values of the globals: `null`, `false`, `false`. -/
def initialModelState : ModelState := ⟨none, false, false⟩

/-- Outcome of the environment-dependent parts of one `loadModel`
attempt: both TensorFlow `require`s throw, the model file is absent,
`tf.loadLayersModel` throws, or the load succeeds. -/
inductive LoadEnv where
  | tfMissing
  | fileMissing
  | loadThrows
  | loadOk (m : TFModel)

/-- `loadModel` (`server.js` lines 97–171).  Returns the value the
`async` function resolves with, paired with the updated globals:
if `model` is set, return it; if a load was already attempted, return
`null`; otherwise mark the attempt and either load the model or set
`usingFallback` on any failure (TensorFlow missing, model file absent,
or load error — all reach `usingFallback = true; return null`). -/
def loadModel (env : LoadEnv) (s : ModelState) : Option TFModel × ModelState :=
  match s.model with
  | some m => (some m, s)
  | none =>
    if s.modelLoadAttempted then (none, s)
    else
      let s1 : ModelState := { s with modelLoadAttempted := true }
      match env with
      | .tfMissing => (none, { s1 with usingFallback := true })
      | .fileMissing => (none, { s1 with usingFallback := true })
      | .loadThrows => (none, { s1 with usingFallback := true })
      | .loadOk m => (some m, { s1 with model := some m })

/-- Outcome of the environment-dependent parts of one inference call
inside `predictFloodRisk`: the TensorFlow `require`s fail at call time,
inference throws, or inference succeeds. -/
inductive InferEnv where
  | tfUnavailable
  | throws
  | ok

/-- The normalized input vector built in `predictFloodRisk`
(`server.js` lines 232–238): `[rainfall/50, soilMoisture, waterLevel/6,
0.05, 0.05]`. -/
def normalizedInput (rainfall waterLevel soilMoisture : ℚ) : List ℚ :=
  [rainfall / 50, soilMoisture, waterLevel / 6, 1/20, 1/20]

/-- `predictFloodRisk` (`server.js` lines 207–250): await `loadModel`;
with no model, return the heuristic; otherwise run inference, where
`riskPercent = Math.round(dataSync()[0] * 100)` is clamped via
`Math.max(0, Math.min(riskPercent, 100))`, and any call-time failure
(TensorFlow unavailable or inference throwing) falls back to the
heuristic for that call without touching the globals. -/
def predictFloodRisk (env : LoadEnv) (ie : InferEnv) (s : ModelState)
    (rainfall waterLevel soilMoisture : ℚ) : ℤ × ModelState :=
  match loadModel env s with
  | (none, s') => (calculateRiskFallback rainfall waterLevel soilMoisture, s')
  | (some mdl, s') =>
    match ie with
    | .tfUnavailable => (calculateRiskFallback rainfall waterLevel soilMoisture, s')
    | .throws => (calculateRiskFallback rainfall waterLevel soilMoisture, s')
    | .ok =>
      let riskPercent :=
        jsRound (mdl.predict (normalizedInput rainfall waterLevel soilMoisture) * 100)
      (max 0 (min riskPercent 100), s')

/-! ## Alert gate (`server.js` lines 255–280) -/

/-- The fields of a `FloodData` record that `sendFloodAlert` reads or
writes. -/
structure FloodRecord where
  lat : ℚ
  lng : ℚ
  rainfall : ℚ
  prediction : ℤ
  riskLevel : String
  sentAlert : Bool
deriving DecidableEq

/-- Outcome of `admin.messaging().send(message)`: delivered, or threw. -/
inductive SendOutcome where
  | success
  | failure
deriving DecidableEq

/-- `sendFloodAlert` (`server.js` lines 255–280): a no-op when Firebase
is uninitialized or `data.sentAlert` is already true; otherwise send,
and only on successful delivery set `data.sentAlert = true` and call
`data.save()`.  Returns the record after the call and whether
`data.save()` was invoked (the persistence write-back); a send failure
is caught, leaving the record untouched and unpersisted. -/
def sendFloodAlert (firebaseInitialized : Bool) (outcome : SendOutcome)
    (data : FloodRecord) : FloodRecord × Bool :=
  if !firebaseInitialized || data.sentAlert then (data, false)
  else
    match outcome with
    | .success => ({ data with sentAlert := true }, true)
    | .failure => (data, false)

/-! ## Data-source fetchers (`server.js` lines 285–338)

Each fetcher is modelled as a total function of the provider call's
outcome: `Except.error` is any thrown failure of the `axios.get`
(timeout, non-2xx status, network error), and the `ok` payload models
the parsed JSON body, with `Option` fields for parts of the expected
shape that may be absent.  A JavaScript property access on `undefined`
throws a TypeError that the surrounding `try` catches; an
optional-chained access (`?.`) instead yields `undefined` without
throwing.  Totality of these functions is the embedding of "never
propagates an exception to its caller". -/

/-- A `{value, source}` pair returned by a fetcher. -/
structure Reading where
  value : ℚ
  source : String
deriving DecidableEq

/-- One entry of OpenWeatherMap's `list` array: `rain3h` models the
optional-chained `rain?.['3h']`, absent when either `rain` or its
`'3h'` field is missing. -/
structure OWMForecast where
  rain3h : Option ℚ
  pop : ℚ

/-- OpenWeatherMap forecast response body: `res.data.list`. -/
structure OWMResp where
  list : List OWMForecast

/-- `fetchRainfallData` (`server.js` lines 285–302): on a thrown
request failure return `{0, 'fallback'}`; `res.data.list[0]` being
absent makes the subsequent property access throw (caught, so also
`{0, 'fallback'}`); otherwise `rainfall = firstForecast.rain?.['3h'] || 0`
with source `'OpenWeatherMap'`. -/
def fetchRainfallData (call : Except Unit OWMResp) : Reading :=
  match call with
  | .error _ => ⟨0, "fallback"⟩
  | .ok res =>
    match res.list.head? with
    | none => ⟨0, "fallback"⟩
    | some firstForecast => ⟨firstForecast.rain3h.getD 0, "OpenWeatherMap"⟩

/-- Innermost USGS array entry, whose `value` field (a numeric string
in the real payload, here its parsed value) may be absent or empty. -/
structure USGSEntry where
  value : Option ℚ

/-- USGS `values[i]` block: `value` is its (possibly absent) array of
entries. -/
structure USGSValuesBlock where
  value : Option (List USGSEntry)

/-- USGS `timeSeries[i]` element with its (possibly absent) `values`
array. -/
structure USGSTimeSeries where
  values : Option (List USGSValuesBlock)

/-- USGS `res.data.value` object with its (possibly absent)
`timeSeries` array. -/
structure USGSValueField where
  timeSeries : Option (List USGSTimeSeries)

/-- USGS response body `res.data`, whose `value` field may be absent. -/
structure USGSResp where
  value : Option USGSValueField

/-- The fully optional-chained extraction
`res.data.value?.timeSeries?.[0]?.values?.[0]?.value?.[0]?.value`
(`server.js` line 311): every step is guarded, so a missing link yields
`undefined` (here `none`) without throwing. -/
def usgsExtractValue (res : USGSResp) : Option ℚ :=
  res.value.bind fun v =>
    (v.timeSeries.bind List.head?).bind fun t =>
      (t.values.bind List.head?).bind fun b =>
        (b.value.bind List.head?).bind fun e => e.value

/-- `fetchWaterLevel` (`server.js` lines 304–320): on a thrown request
failure return `{2.1, 'fallback'}`; otherwise
`waterLevel = val ? parseFloat(val) : 2.1` and the source is `'USGS'`
even when the optional chain found nothing. -/
def fetchWaterLevel (call : Except Unit USGSResp) : Reading :=
  match call with
  | .error _ => ⟨21/10, "fallback"⟩
  | .ok res => ⟨(usgsExtractValue res).getD (21/10), "USGS"⟩

/-- SoilGrids `values` object whose `mean` field may be absent. -/
structure SoilValues where
  mean : Option ℚ

/-- SoilGrids `depths[i]` element with its (possibly absent) `values`
object. -/
structure SoilDepth where
  values : Option SoilValues

/-- SoilGrids `layers[i]` element with its (possibly absent) `depths`
array. -/
structure SoilLayer where
  depths : Option (List SoilDepth)

/-- SoilGrids `properties` object with its (possibly absent) `layers`
array. -/
structure SoilProps where
  layers : Option (List SoilLayer)

/-- SoilGrids response body `res.data`, whose `properties` field may be
absent. -/
structure SoilResp where
  properties : Option SoilProps

/-- The unguarded chain `res.data.properties.layers[0].depths[0].values`
(`server.js` line 329): `none` means some link was missing, in which
case the next plain property access in the source throws (and is
caught). -/
def soilgridsValues (res : SoilResp) : Option SoilValues :=
  res.properties.bind fun p =>
    (p.layers.bind List.head?).bind fun l =>
      (l.depths.bind List.head?).bind fun d => d.values

/-- `fetchSoilMoisture` (`server.js` lines 322–338): a thrown request
failure, or a TypeError from the unguarded field chain, is caught and
returns `{0.5, 'fallback'}`; when the chain reaches a `values` object,
`moisture = mean ? mean / 100 : 0.5` (so an absent or zero — falsy —
`mean` yields 0.5) with source `'SoilGrids'`. -/
def fetchSoilMoisture (call : Except Unit SoilResp) : Reading :=
  match call with
  | .error _ => ⟨1/2, "fallback"⟩
  | .ok res =>
    match soilgridsValues res with
    | none => ⟨1/2, "fallback"⟩
    | some vals =>
      match vals.mean with
      | none => ⟨1/2, "SoilGrids"⟩
      | some m => if m = 0 then ⟨1/2, "SoilGrids"⟩ else ⟨m / 100, "SoilGrids"⟩

/-! ## Scheduled cycle vs. manual trigger (`server.js` lines 343–402 and 474–487) -/

/-- The pipeline steps a cycle can perform. -/
inductive CycleStep where
  | fetch
  | score
  | persist
  | broadcast
  | alert
deriving DecidableEq

/-- Steps performed by the callback registered with
`cron.schedule('*/10 * * * *', ...)` (`server.js` lines 343–402):
fetch the three signals, score, save, broadcast, and alert. -/
def scheduledCycleSteps : List CycleStep :=
  [.fetch, .score, .persist, .broadcast, .alert]

/-- Steps performed by the callback that the `POST /api/trigger`
handler passes to `cron.schedule('* * * * * *', ..., {scheduled:
false}).now()` (`server.js` lines 479–483): the callback body is empty
(only the comment `// Run once`), so no pipeline step runs. -/
def manualTriggerSteps : List CycleStep := []

/-! ## Helper lemmas about the heuristic -/

lemma jsRound_nonneg {q : ℚ} (h : 0 ≤ q) : 0 ≤ jsRound q :=
  Int.le_floor.mpr (by push_cast; linarith)

lemma jsRound_mono {q q' : ℚ} (h : q ≤ q') : jsRound q ≤ jsRound q' :=
  Int.floor_le_floor (by linarith)

lemma rainBucket_nonneg {r : ℚ} (h : 0 ≤ r) : 0 ≤ rainBucket r := by
  unfold rainBucket; split_ifs <;> linarith

lemma rainBucket_le (r : ℚ) : rainBucket r ≤ 45 := by
  unfold rainBucket; split_ifs <;> linarith

lemma waterBucket_nonneg (w : ℚ) : 0 ≤ waterBucket w := by
  unfold waterBucket; split_ifs <;> norm_num

lemma waterBucket_le (w : ℚ) : waterBucket w ≤ 35 := by
  unfold waterBucket; split_ifs <;> norm_num

lemma soilBucket_nonneg (s : ℚ) : 0 ≤ soilBucket s := by
  unfold soilBucket; split_ifs <;> norm_num

lemma soilBucket_le (s : ℚ) : soilBucket s ≤ 20 := by
  unfold soilBucket; split_ifs <;> norm_num

lemma bucketSum_nonneg {r : ℚ} (h : 0 ≤ r) (w s : ℚ) : 0 ≤ bucketSum r w s := by
  have h1 := rainBucket_nonneg h
  have h2 := waterBucket_nonneg w
  have h3 := soilBucket_nonneg s
  unfold bucketSum; linarith

lemma bucketSum_le (r w s : ℚ) : bucketSum r w s ≤ 100 := by
  have h1 := rainBucket_le r
  have h2 := waterBucket_le w
  have h3 := soilBucket_le s
  unfold bucketSum; linarith

lemma rainBucket_mono {r r' : ℚ} (h : r ≤ r') : rainBucket r ≤ rainBucket r' := by
  unfold rainBucket; split_ifs <;> linarith

lemma waterBucket_mono {w w' : ℚ} (h : w ≤ w') : waterBucket w ≤ waterBucket w' := by
  unfold waterBucket; split_ifs <;> linarith

lemma soilBucket_mono {s s' : ℚ} (h : s ≤ s') : soilBucket s ≤ soilBucket s' := by
  unfold soilBucket; split_ifs <;> linarith

/-- If the bucket sum grows, stays within `[0,100]` on the left, and the
combined-risk condition can only switch off→on, the final heuristic
score is monotone: the 1.3 multiplier and both clamps preserve order. -/
lemma calculateRiskFallback_mono_of {r w s r' w' s' : ℚ}
    (hS : bucketSum r w s ≤ bucketSum r' w' s')
    (hS0' : 0 ≤ bucketSum r' w' s')
    (hS1 : bucketSum r w s ≤ 100)
    (hc : (r > 20 ∧ w > 3 ∧ s > 7/10) → (r' > 20 ∧ w' > 3 ∧ s' > 7/10)) :
    calculateRiskFallback r w s ≤ calculateRiskFallback r' w' s' := by
  simp only [calculateRiskFallback]
  split_ifs with h h'
  · exact min_le_min (jsRound_mono (min_le_min (by linarith) le_rfl)) le_rfl
  · exact absurd (hc h) h'
  · exact min_le_min (jsRound_mono (le_min (by linarith) hS1)) le_rfl
  · exact min_le_min (jsRound_mono hS) le_rfl

/-! ## The claims -/

/-- C1 counterexample: for `rainfall = 45, waterLevel = 4.2,
soilMoisture = 0.7` the heuristic score is 74, not the claimed 78 —
the soil-moisture branch `soilMoisture > 0.7` is strict, so 0.7 falls
into the `> 0.6` bucket worth 8 points, not the 12 the claim adds. -/
theorem scenario_45_42_07_counterexample :
    calculateRiskFallback 45 (21/5) (7/10) = 74 ∧ (74 : ℤ) ≠ 78 := by
  constructor
  · norm_num [calculateRiskFallback, bucketSum, rainBucket, waterBucket, soilBucket, jsRound]
  · decide

/-- C1 amended: for `rainfall = 45, waterLevel = 4.2,
soilMoisture = 0.7` the bucket sum is 38 (rain > 30) + 28 (water > 4) +
8 (soil > 0.6, since 0.7 is not strictly greater than 0.7), the
combined-risk multiplier does not apply (soil not strictly > 0.7), and
the final score is 74, which classifies as risk level `high`. -/
theorem scenario_45_42_07_amended :
    bucketSum 45 (21/5) (7/10) = 38 + 28 + 8 ∧
    ¬((45:ℚ) > 20 ∧ (21/5:ℚ) > 3 ∧ (7/10:ℚ) > 7/10) ∧
    calculateRiskFallback 45 (21/5) (7/10) = 74 ∧
    riskLevel 74 = "high" := by
  refine ⟨?_, ?_, ?_, ?_⟩
  · norm_num [bucketSum, rainBucket, waterBucket, soilBucket]
  · norm_num
  · norm_num [calculateRiskFallback, bucketSum, rainBucket, waterBucket, soilBucket, jsRound]
  · decide

/-- C2 counterexample: a well-formed request outcome whose USGS
response body lacks the `value` field (a malformed response) makes
`fetchWaterLevel` return the fallback constant 2.1 but with source
`'USGS'`, not the claimed `{value: 2.1, source: 'fallback'}` — the
extraction uses optional chaining, so a malformed body does not throw
and never reaches the catch block. -/
theorem fetch_fallback_counterexample :
    fetchWaterLevel (Except.ok ⟨none⟩) = ⟨21/10, "USGS"⟩ ∧
    fetchWaterLevel (Except.ok ⟨none⟩) ≠ ⟨21/10, "fallback"⟩ := by
  constructor
  · rfl
  · intro h
    exact absurd (congrArg Reading.source h) (by decide)

/-- C2 amended: each fetcher is a total function of the call outcome
(no exception propagates), and every thrown provider failure (timeout,
non-2xx, network error) returns the documented fallback pair
(rainfall 0, water level 2.1, soil moisture 0.5, source `'fallback'`),
as do malformed responses whose extraction throws (empty OpenWeatherMap
`list`, missing SoilGrids field chain); however a malformed USGS body
yields `{2.1, 'USGS'}` because its extraction is optional-chained, and
a SoilGrids body whose `values.mean` is merely absent yields
`{0.5, 'SoilGrids'}`. -/
theorem fetch_fallback_amended :
    fetchRainfallData (Except.error ()) = ⟨0, "fallback"⟩ ∧
    fetchWaterLevel (Except.error ()) = ⟨21/10, "fallback"⟩ ∧
    fetchSoilMoisture (Except.error ()) = ⟨1/2, "fallback"⟩ ∧
    fetchRainfallData (Except.ok ⟨[]⟩) = ⟨0, "fallback"⟩ ∧
    fetchSoilMoisture (Except.ok ⟨none⟩) = ⟨1/2, "fallback"⟩ ∧
    fetchWaterLevel (Except.ok ⟨none⟩) = ⟨21/10, "USGS"⟩ ∧
    fetchSoilMoisture
        (Except.ok ⟨some ⟨some [⟨some [⟨some ⟨none⟩⟩]⟩]⟩⟩) = ⟨1/2, "SoilGrids"⟩ :=
  ⟨rfl, rfl, rfl, rfl, rfl, rfl, rfl⟩

/-- C3: for all `rainfall ∈ [0,60]`, `waterLevel ∈ [0,6]`,
`soilMoisture ∈ [0,1]`, the heuristic score (an integer by its `ℤ`
codomain, since the source rounds) lies in `[0,100]`. -/
theorem heuristic_score_in_range (r w s : ℚ)
    (hr0 : 0 ≤ r) (_hr1 : r ≤ 60) (_hw0 : 0 ≤ w) (_hw1 : w ≤ 6)
    (_hs0 : 0 ≤ s) (_hs1 : s ≤ 1) :
    0 ≤ calculateRiskFallback r w s ∧ calculateRiskFallback r w s ≤ 100 := by
  have hS0 := bucketSum_nonneg hr0 w s
  constructor
  · simp only [calculateRiskFallback]
    split_ifs with h
    · exact le_min (jsRound_nonneg (le_min (by linarith) (by norm_num))) (by norm_num)
    · exact le_min (jsRound_nonneg hS0) (by norm_num)
  · simp only [calculateRiskFallback]
    split_ifs <;> exact min_le_right _ _

/-- C3 witness at `rainfall = 45, waterLevel = 4.2, soilMoisture = 0.7`. -/
theorem heuristic_score_in_range_witness :
    0 ≤ calculateRiskFallback 45 (21/5) (7/10) ∧
    calculateRiskFallback 45 (21/5) (7/10) ≤ 100 :=
  heuristic_score_in_range 45 (21/5) (7/10) (by norm_num) (by norm_num) (by norm_num)
    (by norm_num) (by norm_num) (by norm_num)

/-- C4: the 1.3 combined-risk multiplier is applied — the score is the
clamped rounding of `min(bucketSum * 1.3, 100)` — exactly when
`rainfall > 20 ∧ waterLevel > 3 ∧ soilMoisture > 0.7` all hold strictly,
and otherwise the score is the clamped rounding of the plain bucket
sum; at `(20, 3, 0.7)` no condition holds strictly and the score equals
the plain sum 38, while at `(20.1, 3.1, 0.71)` all three hold and the
score is 78 = round(60 * 1.3), not the plain sum 60. -/
theorem multiplier_iff_thresholds :
    (∀ r w s : ℚ, (r > 20 ∧ w > 3 ∧ s > 7/10) →
       calculateRiskFallback r w s =
         min (jsRound (min (bucketSum r w s * (13/10)) 100)) 100) ∧
    (∀ r w s : ℚ, ¬(r > 20 ∧ w > 3 ∧ s > 7/10) →
       calculateRiskFallback r w s = min (jsRound (bucketSum r w s)) 100) ∧
    calculateRiskFallback 20 3 (7/10) = 38 ∧
    jsRound (bucketSum 20 3 (7/10)) = 38 ∧
    calculateRiskFallback (201/10) (31/10) (71/100) = 78 ∧
    jsRound (bucketSum (201/10) (31/10) (71/100)) = 60 := by
  refine ⟨?_, ?_, ?_, ?_, ?_, ?_⟩
  · intro r w s h; simp only [calculateRiskFallback, if_pos h]
  · intro r w s h; simp only [calculateRiskFallback, if_neg h]
  · norm_num [calculateRiskFallback, bucketSum, rainBucket, waterBucket, soilBucket, jsRound]
  · norm_num [bucketSum, rainBucket, waterBucket, soilBucket, jsRound]
  · norm_num [calculateRiskFallback, bucketSum, rainBucket, waterBucket, soilBucket, jsRound]
  · norm_num [bucketSum, rainBucket, waterBucket, soilBucket, jsRound]

/-- C4 witness: the multiplier branch at `(25, 4, 0.8)` and the plain
branch at `(1, 1, 0.1)`. -/
theorem multiplier_iff_thresholds_witness :
    calculateRiskFallback 25 4 (4/5) =
      min (jsRound (min (bucketSum 25 4 (4/5) * (13/10)) 100)) 100 ∧
    calculateRiskFallback 1 1 (1/10) = min (jsRound (bucketSum 1 1 (1/10))) 100 :=
  ⟨multiplier_iff_thresholds.1 25 4 (4/5) (by norm_num),
   multiplier_iff_thresholds.2.1 1 1 (1/10) (by norm_num)⟩

/-- C5: the model load is attempted at most once per process — any
`loadModel` call on a model-less state marks `modelLoadAttempted`;
once `modelLoadAttempted` is set with no model loaded, `loadModel`
returns `null` immediately without touching the state (no retry), and
every `predictFloodRisk` call in that situation returns the heuristic
score with the state unchanged, for any environment — so the heuristic
fallback is permanent for the process lifetime. -/
theorem model_load_attempted_once :
    (∀ (env : LoadEnv) (st : ModelState), st.model = none →
       ((loadModel env st).2).modelLoadAttempted = true) ∧
    (∀ (env : LoadEnv) (st : ModelState),
       st.modelLoadAttempted = true → st.model = none →
       loadModel env st = (none, st)) ∧
    (∀ (env : LoadEnv) (ie : InferEnv) (st : ModelState) (r w s : ℚ),
       st.modelLoadAttempted = true → st.model = none →
       predictFloodRisk env ie st r w s = (calculateRiskFallback r w s, st)) := by
  refine ⟨?_, ?_, ?_⟩
  · intro env st h
    simp only [loadModel, h]
    split_ifs with ha
    · exact ha
    · cases env <;> rfl
  · intro env st ha h
    simp [loadModel, h, ha]
  · intro env ie st r w s ha h
    simp [predictFloodRisk, loadModel, h, ha]

/-- C5 witness: a fresh state is marked attempted; an attempted,
model-less state is returned unchanged by `loadModel` and scored by the
heuristic by `predictFloodRisk`. -/
theorem model_load_attempted_once_witness :
    ((loadModel .tfMissing ⟨none, false, false⟩).2).modelLoadAttempted = true ∧
    loadModel .fileMissing ⟨none, true, true⟩ = (none, ⟨none, true, true⟩) ∧
    predictFloodRisk .fileMissing .ok ⟨none, true, true⟩ 3 3 (1/2) =
      (calculateRiskFallback 3 3 (1/2), ⟨none, true, true⟩) :=
  ⟨model_load_attempted_once.1 .tfMissing ⟨none, false, false⟩ rfl,
   model_load_attempted_once.2.1 .fileMissing ⟨none, true, true⟩ rfl rfl,
   model_load_attempted_once.2.2 .fileMissing .ok ⟨none, true, true⟩ 3 3 (1/2) rfl rfl⟩

/-- C6: `sendFloodAlert` is a no-op on a record whose `sentAlert` is
already true (so the flag never reverts and a second alert attempt does
nothing); on delivery failure the record is unchanged and not persisted
(no retry happens — the function performs at most one send); on
successful delivery with Firebase initialized, `sentAlert` is set and
the single-field save is invoked; and the result carries
`sentAlert = true` only if it was already true or the send succeeded
and the save ran. -/
theorem sentAlert_once :
    (∀ (fi : Bool) (o : SendOutcome) (d : FloodRecord), d.sentAlert = true →
       sendFloodAlert fi o d = (d, false)) ∧
    (∀ (fi : Bool) (d : FloodRecord), sendFloodAlert fi .failure d = (d, false)) ∧
    (∀ (d : FloodRecord), d.sentAlert = false →
       sendFloodAlert true .success d = ({ d with sentAlert := true }, true)) ∧
    (∀ (fi : Bool) (o : SendOutcome) (d : FloodRecord),
       (sendFloodAlert fi o d).1.sentAlert = true →
       d.sentAlert = true ∨
         (fi = true ∧ o = .success ∧ (sendFloodAlert fi o d).2 = true)) := by
  refine ⟨?_, ?_, ?_, ?_⟩
  · intro fi o d h
    simp [sendFloodAlert, h]
  · intro fi d
    unfold sendFloodAlert
    split_ifs with h
    · rfl
    · rfl
  · intro d h
    simp [sendFloodAlert, h]
  · intro fi o d h
    cases fi with
    | false => simp [sendFloodAlert] at h; exact Or.inl h
    | true =>
      cases hd : d.sentAlert with
      | true => exact Or.inl rfl
      | false =>
        cases o with
        | failure => simp [sendFloodAlert, hd] at h
        | success => exact Or.inr ⟨rfl, rfl, by simp [sendFloodAlert, hd]⟩

/-- C6 witness on a concrete high-risk record: second attempt is a
no-op, failure leaves the flag false and unpersisted, success sets and
persists it. -/
theorem sentAlert_once_witness :
    sendFloodAlert true .success ⟨0, 0, 0, 80, "high", true⟩ =
      (⟨0, 0, 0, 80, "high", true⟩, false) ∧
    sendFloodAlert true .failure ⟨0, 0, 0, 80, "high", false⟩ =
      (⟨0, 0, 0, 80, "high", false⟩, false) ∧
    sendFloodAlert true .success ⟨0, 0, 0, 80, "high", false⟩ =
      (⟨0, 0, 0, 80, "high", true⟩, true) :=
  ⟨sentAlert_once.1 true .success ⟨0, 0, 0, 80, "high", true⟩ rfl,
   sentAlert_once.2.1 true ⟨0, 0, 0, 80, "high", false⟩,
   sentAlert_once.2.2.1 ⟨0, 0, 0, 80, "high", false⟩ rfl⟩

/-- C7: with a model loaded, an inference call that throws returns the
heuristic score for that call with the state — loaded model reference
and fallback flag — unchanged, and a subsequent call that does not
throw runs model inference again (clamped rounding of the model
output), also without state change. -/
theorem inference_failure_transient :
    ∀ (env : LoadEnv) (st : ModelState) (mdl : TFModel) (r w s : ℚ),
      st.model = some mdl →
      predictFloodRisk env .throws st r w s = (calculateRiskFallback r w s, st) ∧
      predictFloodRisk env .ok st r w s =
        (max 0 (min (jsRound (mdl.predict (normalizedInput r w s) * 100)) 100), st) := by
  intro env st mdl r w s h
  constructor <;> simp [predictFloodRisk, loadModel, h]

/-- C7 witness at a concrete loaded model. -/
theorem inference_failure_transient_witness :
    predictFloodRisk .tfMissing .throws ⟨some ⟨fun _ => 1/2⟩, true, false⟩ 3 3 (1/2) =
      (calculateRiskFallback 3 3 (1/2), ⟨some ⟨fun _ => 1/2⟩, true, false⟩) ∧
    predictFloodRisk .tfMissing .ok ⟨some ⟨fun _ => 1/2⟩, true, false⟩ 3 3 (1/2) =
      (max 0 (min (jsRound ((TFModel.mk fun _ => 1/2).predict
          (normalizedInput 3 3 (1/2)) * 100)) 100),
       ⟨some ⟨fun _ => 1/2⟩, true, false⟩) :=
  inference_failure_transient .tfMissing ⟨some ⟨fun _ => 1/2⟩, true, false⟩
    ⟨fun _ => 1/2⟩ 3 3 (1/2) rfl

/-- C8: over `rainfall ∈ [0,60]`, `waterLevel ∈ [0,6]`,
`soilMoisture ∈ [0,1]`, the heuristic is monotone non-decreasing in
each argument with the other two fixed, and strictly increases across
the 50 mm rainfall threshold: `heuristic(49,2,0.1) < heuristic(51,2,0.1)`. -/
theorem heuristic_monotone :
    (∀ r r' w s : ℚ, 0 ≤ r → r ≤ r' → r' ≤ 60 → 0 ≤ w → w ≤ 6 → 0 ≤ s → s ≤ 1 →
       calculateRiskFallback r w s ≤ calculateRiskFallback r' w s) ∧
    (∀ r w w' s : ℚ, 0 ≤ r → r ≤ 60 → 0 ≤ w → w ≤ w' → w' ≤ 6 → 0 ≤ s → s ≤ 1 →
       calculateRiskFallback r w s ≤ calculateRiskFallback r w' s) ∧
    (∀ r w s s' : ℚ, 0 ≤ r → r ≤ 60 → 0 ≤ w → w ≤ 6 → 0 ≤ s → s ≤ s' → s' ≤ 1 →
       calculateRiskFallback r w s ≤ calculateRiskFallback r w s') ∧
    calculateRiskFallback 49 2 (1/10) < calculateRiskFallback 51 2 (1/10) := by
  refine ⟨?_, ?_, ?_, ?_⟩
  · intro r r' w s hr0 hrr _ _ _ _ _
    have hm := rainBucket_mono hrr
    refine calculateRiskFallback_mono_of ?_ (bucketSum_nonneg (by linarith) w s)
      (bucketSum_le r w s) ?_
    · unfold bucketSum; linarith
    · rintro ⟨h1, h2, h3⟩; exact ⟨by linarith, h2, h3⟩
  · intro r w w' s hr0 _ _ hww _ _ _
    have hm := waterBucket_mono hww
    refine calculateRiskFallback_mono_of ?_ (bucketSum_nonneg hr0 w' s)
      (bucketSum_le r w s) ?_
    · unfold bucketSum; linarith
    · rintro ⟨h1, h2, h3⟩; exact ⟨h1, by linarith, h3⟩
  · intro r w s s' hr0 _ _ _ _ hss _
    have hm := soilBucket_mono hss
    refine calculateRiskFallback_mono_of ?_ (bucketSum_nonneg hr0 w s')
      (bucketSum_le r w s) ?_
    · unfold bucketSum; linarith
    · rintro ⟨h1, h2, h3⟩; exact ⟨h1, h2, by linarith⟩
  · norm_num [calculateRiskFallback, bucketSum, rainBucket, waterBucket, soilBucket, jsRound]

/-- C8 witness: one concrete instance of each monotonicity component. -/
theorem heuristic_monotone_witness :
    calculateRiskFallback 10 2 (1/2) ≤ calculateRiskFallback 20 2 (1/2) ∧
    calculateRiskFallback 10 2 (1/2) ≤ calculateRiskFallback 10 3 (1/2) ∧
    calculateRiskFallback 10 2 (1/2) ≤ calculateRiskFallback 10 2 (3/4) :=
  ⟨heuristic_monotone.1 10 20 2 (1/2) (by norm_num) (by norm_num) (by norm_num)
     (by norm_num) (by norm_num) (by norm_num) (by norm_num),
   heuristic_monotone.2.1 10 2 3 (1/2) (by norm_num) (by norm_num) (by norm_num)
     (by norm_num) (by norm_num) (by norm_num) (by norm_num),
   heuristic_monotone.2.2.1 10 2 (1/2) (3/4) (by norm_num) (by norm_num) (by norm_num)
     (by norm_num) (by norm_num) (by norm_num) (by norm_num)⟩

/-- C9: the callback the `POST /api/trigger` handler hands to
`cron.schedule(...).now()` has an empty body, so the manual trigger
performs none of the pipeline steps the scheduled cycle performs. -/
theorem manual_trigger_runs_no_steps :
    manualTriggerSteps = [] ∧ manualTriggerSteps ≠ scheduledCycleSteps :=
  ⟨rfl, by decide⟩

/-- C10: the heuristic clamps only from above — for every input with
`rainfall ≥ 0` the score is in `[0,100]`, but at
`(rainfall, waterLevel, soilMoisture) = (-5, 0, 0)` it returns the
negative value -5 — whereas the model path of `predictFloodRisk` clamps
to `[0,100]` on both sides via `Math.max(0, Math.min(riskPercent, 100))`. -/
theorem fallback_clamps_above_only :
    (∀ r w s : ℚ, 0 ≤ r →
       0 ≤ calculateRiskFallback r w s ∧ calculateRiskFallback r w s ≤ 100) ∧
    calculateRiskFallback (-5) 0 0 = -5 ∧
    (∀ (env : LoadEnv) (st : ModelState) (mdl : TFModel) (r w s : ℚ),
       st.model = some mdl →
       0 ≤ (predictFloodRisk env .ok st r w s).1 ∧
       (predictFloodRisk env .ok st r w s).1 ≤ 100) := by
  refine ⟨?_, ?_, ?_⟩
  · intro r w s hr0
    have hS0 := bucketSum_nonneg hr0 w s
    constructor
    · simp only [calculateRiskFallback]
      split_ifs with h
      · exact le_min (jsRound_nonneg (le_min (by linarith) (by norm_num))) (by norm_num)
      · exact le_min (jsRound_nonneg hS0) (by norm_num)
    · simp only [calculateRiskFallback]
      split_ifs <;> exact min_le_right _ _
  · norm_num [calculateRiskFallback, bucketSum, rainBucket, waterBucket, soilBucket, jsRound]
  · intro env st mdl r w s h
    simp only [predictFloodRisk, loadModel, h]
    exact ⟨le_max_left _ _, max_le (by norm_num) (min_le_right _ _)⟩

/-- C10 witness: the heuristic bound at `(3, 3, 0.5)` and the model-path
clamp at a concrete loaded model. -/
theorem fallback_clamps_above_only_witness :
    (0 ≤ calculateRiskFallback 3 3 (1/2) ∧ calculateRiskFallback 3 3 (1/2) ≤ 100) ∧
    (0 ≤ (predictFloodRisk .tfMissing .ok
            ⟨some ⟨fun _ => 1/2⟩, true, false⟩ 3 3 (1/2)).1 ∧
     (predictFloodRisk .tfMissing .ok
            ⟨some ⟨fun _ => 1/2⟩, true, false⟩ 3 3 (1/2)).1 ≤ 100) :=
  ⟨fallback_clamps_above_only.1 3 3 (1/2) (by norm_num),
   fallback_clamps_above_only.2.2 .tfMissing ⟨some ⟨fun _ => 1/2⟩, true, false⟩
     ⟨fun _ => 1/2⟩ 3 3 (1/2) rfl⟩

end FloodGuard
